import Mathlib

/-!
Verification development for the 3Dphys-boilerplate repository.

The repository is a small browser demo wiring a graphics engine and a
rigid-body physics engine: an `Engine` class (create box/capsule/sphere with
paired visual mesh and physics body, a per-frame `updatePhysics` sync and a
`render` loop) plus an application script (floor construction, random spawn
parameter generation and a keypress handler for S/B/C/Space/R/F/G).

Modelling conventions:
- JS numbers are modelled as rationals (`ℚ`); `Math.random()` draws are an
  explicit stream `g : ℕ → ℚ` with validity `∀ n, 0 ≤ g n < 1`, consumed at
  an explicit index.
- The JS heap of Ammo rigid bodies is a map `ℕ → Option PhysBody`; a
  `SimObject` (a three.js mesh with `userData.physicsBody`) stores the id of
  its paired body.  Scene membership and physics-world membership are lists
  of those ids.  `removeCollisionObject` removes a body from the world list
  but never deletes the heap entry, matching JS reference semantics.
- The external physics step (`stepSimulation`) is an opaque parameter: a
  function from the time delta, the sub-step bound, the world membership
  list and the current body heap to a new body heap.
- The observable actions of a frame (`stepSimulation`, transform sync,
  `renderer.render`, the render callback, `requestAnimationFrame`) are
  recorded as an event trace so ordering claims can be stated.
-/

namespace Phys3D

/-! ## util.js -/

/-- `randomInt(max, min = 0)` from `src/app/lib/util.js`:
`min + Math.floor(Math.random() * max)`.  `r` is the `Math.random()` draw. -/
def randomInt (max : ℚ) (min : ℤ) (r : ℚ) : ℤ :=
  min + ⌊r * max⌋

/-- `randomFloat(max, min = 0)` from `src/app/lib/util.js`:
`min + (Math.random() * max)`.  `r` is the `Math.random()` draw. -/
def randomFloat (max min r : ℚ) : ℚ :=
  min + r * max

/-- `random8BitColor()` from `src/app/lib/util.js`: `Math.random() * 0xffffff`. -/
def random8BitColor (r : ℚ) : ℚ :=
  r * 0xffffff

/-- Validity of a `Math.random()` draw stream: every draw lies in `[0, 1)`. -/
def ValidStream (g : ℕ → ℚ) : Prop :=
  ∀ n, 0 ≤ g n ∧ g n < 1

/-! ## Engine data model -/

/-- A 3-component vector (`THREE.Vector3` / `Ammo.btVector3`). -/
structure Vec3 where
  x : ℚ
  y : ℚ
  z : ℚ
deriving DecidableEq

/-- A quaternion value (`THREE.Quaternion` / `Ammo.btQuaternion`). -/
structure Quat where
  x : ℚ
  y : ℚ
  z : ℚ
  w : ℚ
deriving DecidableEq

/-- A rigid transform (`Ammo.btTransform`): an origin and a rotation. -/
structure Transform where
  origin : Vec3
  rotation : Quat
deriving DecidableEq

/-- Collision/visual geometry of a created object.  The box stores the full
`scale` argument; the Ammo `btBoxShape` half extents are `scale * 0.5`. -/
inductive Shape where
  | box (scale : Vec3)
  | capsule (radius length : ℚ)
  | sphere (radius : ℚ)
deriving DecidableEq

/-- `createBox` accepts either a plain number or an `{x, y, z}` object for
`scale` (the JS `typeof scale === 'number'` check). -/
inductive ScaleArg where
  | num (s : ℚ)
  | vec (v : Vec3)

/-- The `typeof scale === 'number'` expansion at the top of `createBox`. -/
def resolveScale : ScaleArg → Vec3
  | ScaleArg.num s => ⟨s, s, s⟩
  | ScaleArg.vec v => v

/-- An Ammo rigid body as constructed by the three create methods: mass,
restitution (always set to `0.75`), collision margin (always `0.05`),
collision shape, and the motion state holding the body's world transform. -/
structure PhysBody where
  mass : ℚ
  restitution : ℚ
  margin : ℚ
  shape : Shape
  motionState : Option Transform
deriving DecidableEq

/-- A three.js mesh paired with its physics body
(`mesh.userData.physicsBody`).  `id` identifies the mesh in the scene list
and its paired rigid body in the body heap; the pair is created together.
The mesh `position` is set at creation and overwritten by the per-frame
sync; the mesh `quaternion` is left at the three.js default `(0,0,0,1)`
until the first sync. -/
structure SimObject where
  name : String
  geometry : Shape
  color : ℚ
  position : Vec3
  quaternion : Quat
  id : ℕ
deriving DecidableEq

/-- The mutable state of the `Engine` instance (graphics scene, physics
world, rigid-body registry) relevant to the claims. -/
structure EngineState where
  /-- ids of meshes currently added to the three.js scene. -/
  scene : List ℕ
  /-- ids of rigid bodies currently registered with the physics world. -/
  physicsUniverse : List ℕ
  /-- the heap of all created rigid bodies, by id (never freed). -/
  bodies : ℕ → Option PhysBody
  /-- `this.rigidBodies`: the registry, in insertion order. -/
  rigidBodies : List SimObject
  /-- whether `this.renderCallback` is set to a function. -/
  renderCallback : Bool
  /-- next fresh id for a mesh/body pair. -/
  nextId : ℕ

/-! ## Engine create methods -/

/-- `Engine.createBox(scale, position, quaternion, mass, name, color)`:
makes a mesh and a rigid body (restitution 0.75, margin 0.05, box shape
with half extents `scale * 0.5`, motion state at the given transform), adds
the mesh to the scene, the body to the physics world, pushes the mesh onto
`rigidBodies`, and returns the mesh. -/
def createBox (E : EngineState) (scaleArg : ScaleArg) (position : Vec3)
    (quaternion : Quat) (mass : ℚ) (name : String) (color : ℚ) :
    EngineState × Option SimObject :=
  let scale := resolveScale scaleArg
  let id := E.nextId
  let body : PhysBody :=
    { mass := mass, restitution := 0.75, margin := 0.05,
      shape := Shape.box scale, motionState := some ⟨position, quaternion⟩ }
  let cube : SimObject :=
    { name := name, geometry := Shape.box scale, color := color,
      position := position, quaternion := ⟨0, 0, 0, 1⟩, id := id }
  ({ E with
      scene := E.scene ++ [id],
      physicsUniverse := E.physicsUniverse ++ [id],
      bodies := fun n => if n = id then some body else E.bodies n,
      rigidBodies := E.rigidBodies ++ [cube],
      nextId := id + 1 },
   some cube)

/-- `Engine.createCapsule(radius, length, position, quaternion, mass, name,
color)`: same construction with a capsule shape; unlike `createBox` and
`createSphere` it has no `return` statement, so the caller gets `undefined`
(`none`). -/
def createCapsule (E : EngineState) (radius length : ℚ) (position : Vec3)
    (quaternion : Quat) (mass : ℚ) (name : String) (color : ℚ) :
    EngineState × Option SimObject :=
  let id := E.nextId
  let body : PhysBody :=
    { mass := mass, restitution := 0.75, margin := 0.05,
      shape := Shape.capsule radius length,
      motionState := some ⟨position, quaternion⟩ }
  let capsule : SimObject :=
    { name := name, geometry := Shape.capsule radius length, color := color,
      position := position, quaternion := ⟨0, 0, 0, 1⟩, id := id }
  ({ E with
      scene := E.scene ++ [id],
      physicsUniverse := E.physicsUniverse ++ [id],
      bodies := fun n => if n = id then some body else E.bodies n,
      rigidBodies := E.rigidBodies ++ [capsule],
      nextId := id + 1 },
   none)

/-- `Engine.createSphere(radius, position, quaternion, mass, name, color)`:
same construction with a sphere shape; returns the mesh. -/
def createSphere (E : EngineState) (radius : ℚ) (position : Vec3)
    (quaternion : Quat) (mass : ℚ) (name : String) (color : ℚ) :
    EngineState × Option SimObject :=
  let id := E.nextId
  let body : PhysBody :=
    { mass := mass, restitution := 0.75, margin := 0.05,
      shape := Shape.sphere radius, motionState := some ⟨position, quaternion⟩ }
  let sphere : SimObject :=
    { name := name, geometry := Shape.sphere radius, color := color,
      position := position, quaternion := ⟨0, 0, 0, 1⟩, id := id }
  ({ E with
      scene := E.scene ++ [id],
      physicsUniverse := E.physicsUniverse ++ [id],
      bodies := fun n => if n = id then some body else E.bodies n,
      rigidBodies := E.rigidBodies ++ [sphere],
      nextId := id + 1 },
   some sphere)

/-! ## Engine per-frame loop -/

/-- Observable actions of one `Engine.render` tick, in execution order. -/
inductive FrameEvent where
  | stepSimulation (delta : ℚ) (maxSubSteps : ℕ)
  | syncTransform (id : ℕ)
  | renderScene
  | renderCallback
  | requestAnimationFrame
deriving DecidableEq

/-- The external `physicsUniverse.stepSimulation(delta, maxSubSteps)`,
modelled as an opaque update of the body heap; it may read the world
membership list. -/
def StepFn : Type :=
  ℚ → ℕ → List ℕ → (ℕ → Option PhysBody) → ℕ → Option PhysBody

/-- `body.getMotionState()` on the body referenced by id `n`: a dangling
reference (no heap entry) behaves like a missing motion state. -/
def motionStateOf (bodies : ℕ → Option PhysBody) (n : ℕ) : Option Transform :=
  (bodies n).bind fun b => b.motionState

/-- The body of the `rigidBodies.forEach` in `Engine.updatePhysics`: read
the object's physics body's motion state; if present, copy its world
transform onto the mesh `position`/`quaternion` (emitting a sync event),
otherwise leave the mesh untouched. -/
def syncOne (bodies : ℕ → Option PhysBody) (rigidBody : SimObject) :
    SimObject × List FrameEvent :=
  match motionStateOf bodies rigidBody.id with
  | some t =>
      ({ rigidBody with position := t.origin, quaternion := t.rotation },
       [FrameEvent.syncTransform rigidBody.id])
  | none => (rigidBody, [])

/-- `Engine.updatePhysics(deltaTime)`: step the physics world with
`stepSimulation(deltaTime, 10)`, then for every registry entry in order copy
the body's motion-state transform onto the mesh.  Returns the new state and
the event trace of this call. -/
def updatePhysics (stepFn : StepFn) (E : EngineState) (deltaTime : ℚ) :
    EngineState × List FrameEvent :=
  let bodies := stepFn deltaTime 10 E.physicsUniverse E.bodies
  let synced := E.rigidBodies.map (syncOne bodies)
  ({ E with bodies := bodies, rigidBodies := synced.map Prod.fst },
   FrameEvent.stepSimulation deltaTime 10 :: (synced.map Prod.snd).flatten)

/-- `Engine.render()`: compute the elapsed `deltaTime` (an input here), run
`updatePhysics`, render the scene, call `renderCallback` when it is set to a
function, and schedule the next tick with `requestAnimationFrame`. -/
def render (stepFn : StepFn) (E : EngineState) (deltaTime : ℚ) :
    EngineState × List FrameEvent :=
  let stepped := updatePhysics stepFn E deltaTime
  (stepped.1,
   stepped.2 ++ [FrameEvent.renderScene]
     ++ (if stepped.1.renderCallback then [FrameEvent.renderCallback] else [])
     ++ [FrameEvent.requestAnimationFrame])

/-! ## Application script -/

/-- The record returned by `generateRandomObjectParams()`. -/
structure RandomObjectParams where
  randomColor : ℚ
  randomScale : ℚ
  randomRadius : ℚ
  randomLength : ℚ
  randomX : ℚ
  randomY : ℚ
  randomZ : ℚ
  randomMass : ℚ
  randomQuaternion : Quat
deriving DecidableEq

/-- Number of `Math.random()` draws one call of
`generateRandomObjectParams()` consumes (color, scale, length, x, y, z,
mass, quaternion x, y, z). -/
def paramsDraws : ℕ := 10

/-- `generateRandomObjectParams()` from the application script, consuming
draws `g i, …, g (i+9)` in source order. -/
def generateRandomObjectParams (g : ℕ → ℚ) (i : ℕ) : RandomObjectParams :=
  let randomColor := random8BitColor (g i)
  let randomScale := randomFloat 1 0.75 (g (i+1))
  let randomRadius := randomScale * 0.75
  let randomLength := randomFloat 2 1 (g (i+2))
  let randomX := randomFloat 5 (-5) (g (i+3))
  let randomY := randomFloat 25 20 (g (i+4))
  let randomZ := randomFloat 5 (-5) (g (i+5))
  let randomMass := randomFloat (5 + randomScale) 5 (g (i+6))
  let randomQuaternion : Quat :=
    { x := randomFloat 360 0 (g (i+7))
      y := randomFloat 360 0 (g (i+8))
      z := g (i+9) * 360
      w := 1 }
  { randomColor := randomColor, randomScale := randomScale,
    randomRadius := randomRadius, randomLength := randomLength,
    randomX := randomX, randomY := randomY, randomZ := randomZ,
    randomMass := randomMass, randomQuaternion := randomQuaternion }

/-- `generateRandomObject(rp)`: draw `randomInt(3)` (one `Math.random()`
draw `r`) and switch on it — 0 makes a capsule (radius `randomRadius / 2`),
1 a sphere (radius `randomRadius`), 2 a box (uniform scale `randomScale`);
any other value (impossible for a valid draw) falls through the switch. -/
def generateRandomObject (E : EngineState) (rp : RandomObjectParams)
    (r : ℚ) : EngineState :=
  let whichFunction := randomInt 3 0 r
  if whichFunction = 0 then
    (createCapsule E (rp.randomRadius / 2) rp.randomLength
      ⟨rp.randomX, rp.randomY, rp.randomZ⟩ rp.randomQuaternion rp.randomMass
      "capsule" rp.randomColor).1
  else if whichFunction = 1 then
    (createSphere E rp.randomRadius
      ⟨rp.randomX, rp.randomY, rp.randomZ⟩ rp.randomQuaternion rp.randomMass
      "sphere" rp.randomColor).1
  else if whichFunction = 2 then
    (createBox E (ScaleArg.num rp.randomScale)
      ⟨rp.randomX, rp.randomY, rp.randomZ⟩ rp.randomQuaternion rp.randomMass
      "box" rp.randomColor).1
  else E

/-- `makeFloor()`: five static (`mass = 0`) grey boxes named `'floor'`:
four tilted walls and one base panel. -/
def makeFloor (E : EngineState) : EngineState :=
  let E := (createBox E (ScaleArg.vec ⟨22, 7, 1⟩) ⟨0, 2, 11⟩
    ⟨0.25, 0, 0, 1⟩ 0 "floor" 0xcccccc).1
  let E := (createBox E (ScaleArg.vec ⟨1, 7, 22⟩) ⟨-11, 2, 0⟩
    ⟨0, 0, 0.25, 1⟩ 0 "floor" 0xcccccc).1
  let E := (createBox E (ScaleArg.vec ⟨22, 7, 1⟩) ⟨0, 2, -11⟩
    ⟨-0.25, 0, 0, 1⟩ 0 "floor" 0xcccccc).1
  let E := (createBox E (ScaleArg.vec ⟨1, 7, 22⟩) ⟨11, 2, 0⟩
    ⟨0, 0, -0.25, 1⟩ 0 "floor" 0xcccccc).1
  let E := (createBox E (ScaleArg.vec ⟨21, 2, 21⟩) ⟨0, 0, 0⟩
    ⟨0, 0, 0, 1⟩ 0 "floor" 0xcccccc).1
  E

/-- The `case "KeyR"` body: copy `rigidBodies`, null out every entry whose
name is not `'floor'` while removing its mesh from the scene and its body
from the physics world (`removeCollisionObject`, which does not free the
heap entry), then filter the nulls out of the copy. -/
def removeNonFloor (E : EngineState) : EngineState :=
  let tmpRigidBodies : List (Option SimObject) :=
    E.rigidBodies.map fun rigidBody =>
      if rigidBody.name != "floor" then none else some rigidBody
  { E with
      scene := E.scene.filter fun n =>
        !(E.rigidBodies.any fun r => r.name != "floor" && r.id == n),
      physicsUniverse := E.physicsUniverse.filter fun n =>
        !(E.rigidBodies.any fun r => r.name != "floor" && r.id == n),
      rigidBodies := tmpRigidBodies.filterMap id }

/-- The removal branch of `case "KeyF"`: same pattern as `removeNonFloor`
with the predicate `rigidBody.name === 'floor'`. -/
def removeFloor (E : EngineState) : EngineState :=
  let tmpFloorRigidBodies : List (Option SimObject) :=
    E.rigidBodies.map fun rigidBody =>
      if rigidBody.name == "floor" then none else some rigidBody
  { E with
      scene := E.scene.filter fun n =>
        !(E.rigidBodies.any fun r => r.name == "floor" && r.id == n),
      physicsUniverse := E.physicsUniverse.filter fun n =>
        !(E.rigidBodies.any fun r => r.name == "floor" && r.id == n),
      rigidBodies := tmpFloorRigidBodies.filterMap id }

/-- Application-level state: the engine plus the script's two locals,
`floorIsShowing` and `intervalRef` (modelled as whether the auto-spawn
interval is active). -/
structure AppState where
  engine : EngineState
  floorIsShowing : Bool
  intervalRef : Bool

/-- Key codes dispatched by the keypress handler; `other` stands for any
key mapped to no `case`. -/
inductive KeyCode where
  | keyS
  | keyB
  | keyC
  | space
  | keyR
  | keyF
  | keyG
  | other
deriving DecidableEq

/-- The `case "KeyF"` body: recreate the floor when hidden, else remove all
floor-named objects; flips `floorIsShowing` accordingly. -/
def handleKeyF (st : AppState) : AppState :=
  if !st.floorIsShowing then
    { st with engine := makeFloor st.engine, floorIsShowing := true }
  else
    { st with engine := removeFloor st.engine, floorIsShowing := false }

/-- The keypress listener: every event first evaluates
`generateRandomObjectParams()` (consuming `paramsDraws` draws at index `i`),
then dispatches on `e.code`.  Returns the new app state and the next unread
draw index (`Space` consumes one extra draw inside
`generateRandomObject`). -/
def handleKeypress (st : AppState) (code : KeyCode) (g : ℕ → ℚ) (i : ℕ) :
    AppState × ℕ :=
  let rp := generateRandomObjectParams g i
  let j := i + paramsDraws
  match code with
  | KeyCode.keyS =>
      ({ st with engine := (createSphere st.engine rp.randomRadius
          ⟨rp.randomX, rp.randomY, rp.randomZ⟩ rp.randomQuaternion
          rp.randomMass "sphere" rp.randomColor).1 }, j)
  | KeyCode.keyB =>
      ({ st with engine := (createBox st.engine (ScaleArg.num rp.randomScale)
          ⟨rp.randomX, rp.randomY, rp.randomZ⟩ rp.randomQuaternion
          rp.randomMass "box" rp.randomColor).1 }, j)
  | KeyCode.keyC =>
      ({ st with engine := (createCapsule st.engine (rp.randomRadius / 2)
          rp.randomLength ⟨rp.randomX, rp.randomY, rp.randomZ⟩
          rp.randomQuaternion rp.randomMass "capsule" rp.randomColor).1 }, j)
  | KeyCode.space =>
      ({ st with engine := generateRandomObject st.engine rp (g j) }, j + 1)
  | KeyCode.keyR =>
      ({ st with engine := removeNonFloor st.engine }, j)
  | KeyCode.keyF => (handleKeyF st, j)
  | KeyCode.keyG =>
      (if st.intervalRef then { st with intervalRef := false }
       else { st with intervalRef := true }, j)
  | KeyCode.other => (st, j)

/-- Events the single-threaded event loop can deliver to the script: a
keypress, or a firing of the auto-spawn interval (a no-op when the interval
has been cleared). -/
inductive AppEvent where
  | key (code : KeyCode)
  | timerTick

/-- One event-loop step.  The interval callback evaluates
`generateRandomObjectParams()` and then `generateRandomObject(rp)`,
consuming `paramsDraws + 1` draws. -/
def stepApp (g : ℕ → ℚ) : AppState × ℕ → AppEvent → AppState × ℕ
  | (st, i), AppEvent.key c => handleKeypress st c g i
  | (st, i), AppEvent.timerTick =>
      if st.intervalRef then
        let rp := generateRandomObjectParams g i
        let E := generateRandomObject st.engine rp (g (i + paramsDraws))
        ({ st with engine := E }, i + paramsDraws + 1)
      else (st, i)

/-- The engine state right after `Engine.init()`: empty scene, empty world,
empty registry, `renderCallback` assigned by the script. -/
def initEngine : EngineState :=
  { scene := [], physicsUniverse := [], bodies := fun _ => none,
    rigidBodies := [], renderCallback := true, nextId := 0 }

/-- The application state after startup: `makeFloor()` has run once and
`floorIsShowing = true`, no auto-spawn interval. -/
def initApp : AppState :=
  { engine := makeFloor initEngine, floorIsShowing := true,
    intervalRef := false }

/-! ## Derived observations used by the claims -/

/-- The creation-level description of a registry entry: its name, color and
geometry together with its rigid body (looked up in the heap).  Two floor
panels are "the same" when these agree; the heap id itself is excluded. -/
def objSpec (bodies : ℕ → Option PhysBody) (o : SimObject) :
    String × ℚ × Shape × Option PhysBody :=
  (o.name, o.color, o.geometry, bodies o.id)

/-- The registry entries named `'floor'`, in registry order. -/
def floorObjects (E : EngineState) : List SimObject :=
  E.rigidBodies.filter fun r => r.name == "floor"

/-- The creation-level descriptions of the floor-named registry entries. -/
def floorSpecs (E : EngineState) :
    List (String × ℚ × Shape × Option PhysBody) :=
  (floorObjects E).map (objSpec E.bodies)

/-- Well-formedness of the id allocator: every registry entry's id is below
`nextId`, so creating a new pair never aliases an existing body. -/
def idBound (E : EngineState) : Prop :=
  ∀ o ∈ E.rigidBodies, o.id < E.nextId

instance (E : EngineState) : Decidable (idBound E) := by
  unfold idBound; infer_instance

/-- The descriptions of the five panels `makeFloor()` produces: four tilted
grey walls and one base panel, all named `'floor'` with mass `0`. -/
def floorPanelSpecs : List (String × ℚ × Shape × Option PhysBody) :=
  [("floor", 0xcccccc, Shape.box ⟨22, 7, 1⟩,
      some { mass := 0, restitution := 0.75, margin := 0.05,
             shape := Shape.box ⟨22, 7, 1⟩,
             motionState := some ⟨⟨0, 2, 11⟩, ⟨0.25, 0, 0, 1⟩⟩ }),
   ("floor", 0xcccccc, Shape.box ⟨1, 7, 22⟩,
      some { mass := 0, restitution := 0.75, margin := 0.05,
             shape := Shape.box ⟨1, 7, 22⟩,
             motionState := some ⟨⟨-11, 2, 0⟩, ⟨0, 0, 0.25, 1⟩⟩ }),
   ("floor", 0xcccccc, Shape.box ⟨22, 7, 1⟩,
      some { mass := 0, restitution := 0.75, margin := 0.05,
             shape := Shape.box ⟨22, 7, 1⟩,
             motionState := some ⟨⟨0, 2, -11⟩, ⟨-0.25, 0, 0, 1⟩⟩ }),
   ("floor", 0xcccccc, Shape.box ⟨1, 7, 22⟩,
      some { mass := 0, restitution := 0.75, margin := 0.05,
             shape := Shape.box ⟨1, 7, 22⟩,
             motionState := some ⟨⟨11, 2, 0⟩, ⟨0, 0, -0.25, 1⟩⟩ }),
   ("floor", 0xcccccc, Shape.box ⟨21, 2, 21⟩,
      some { mass := 0, restitution := 0.75, margin := 0.05,
             shape := Shape.box ⟨21, 2, 21⟩,
             motionState := some ⟨⟨0, 0, 0⟩, ⟨0, 0, 0, 1⟩⟩ })]

/-- The spec's §4.1 stated ranges for one `generateRandomObjectParams()`
result, written from the spec's words (claim C1) for comparison with the
source definition. -/
def specStatedRanges (rp : RandomObjectParams) : Prop :=
  (0.75 ≤ rp.randomScale ∧ rp.randomScale < 1.75) ∧
  rp.randomRadius = rp.randomScale * 0.75 ∧
  (1 ≤ rp.randomLength ∧ rp.randomLength < 3) ∧
  (-5 ≤ rp.randomX ∧ rp.randomX < 5) ∧
  (-5 ≤ rp.randomZ ∧ rp.randomZ < 5) ∧
  (20 ≤ rp.randomY ∧ rp.randomY < 45) ∧
  (5 ≤ rp.randomMass ∧ rp.randomMass < 10.75) ∧
  (0 ≤ rp.randomQuaternion.x ∧ rp.randomQuaternion.x < 360) ∧
  (0 ≤ rp.randomQuaternion.y ∧ rp.randomQuaternion.y < 360) ∧
  (0 ≤ rp.randomQuaternion.z ∧ rp.randomQuaternion.z < 360) ∧
  rp.randomQuaternion.w = 1

instance (rp : RandomObjectParams) : Decidable (specStatedRanges rp) := by
  unfold specStatedRanges; infer_instance

/-- A valid draw stream making the scale draw (index 1) and the mass draw
(index 6) large; all other draws are `1/2`. -/
def gMassHigh : ℕ → ℚ :=
  fun n => if n = 1 then 9/10 else if n = 6 then 9/10 else 1/2

/-- The all-halves draw stream, used to instantiate hypotheses. -/
def gHalf : ℕ → ℚ := fun _ => 1/2

theorem gMassHigh_valid : ValidStream gMassHigh := by
  intro n
  unfold gMassHigh
  split <;> [skip; split] <;> norm_num

theorem gHalf_valid : ValidStream gHalf := by
  intro n
  unfold gHalf
  norm_num

/-! Field-level unfoldings of `generateRandomObjectParams`. -/

theorem params_randomColor (g : ℕ → ℚ) (i : ℕ) :
    (generateRandomObjectParams g i).randomColor = g i * 0xffffff := rfl

theorem params_randomScale (g : ℕ → ℚ) (i : ℕ) :
    (generateRandomObjectParams g i).randomScale = 0.75 + g (i+1) * 1 := rfl

theorem params_randomRadius (g : ℕ → ℚ) (i : ℕ) :
    (generateRandomObjectParams g i).randomRadius
      = (0.75 + g (i+1) * 1) * 0.75 := rfl

theorem params_randomLength (g : ℕ → ℚ) (i : ℕ) :
    (generateRandomObjectParams g i).randomLength = 1 + g (i+2) * 2 := rfl

theorem params_randomX (g : ℕ → ℚ) (i : ℕ) :
    (generateRandomObjectParams g i).randomX = -5 + g (i+3) * 5 := rfl

theorem params_randomY (g : ℕ → ℚ) (i : ℕ) :
    (generateRandomObjectParams g i).randomY = 20 + g (i+4) * 25 := rfl

theorem params_randomZ (g : ℕ → ℚ) (i : ℕ) :
    (generateRandomObjectParams g i).randomZ = -5 + g (i+5) * 5 := rfl

theorem params_randomMass (g : ℕ → ℚ) (i : ℕ) :
    (generateRandomObjectParams g i).randomMass
      = 5 + g (i+6) * (5 + (0.75 + g (i+1) * 1)) := rfl

theorem params_randomQuaternion (g : ℕ → ℚ) (i : ℕ) :
    (generateRandomObjectParams g i).randomQuaternion
      = ⟨0 + g (i+7) * 360, 0 + g (i+8) * 360, g (i+9) * 360, 1⟩ := rfl

/-! ## Claim C1 -/

/-- Claim C1, as stated, is false: with valid draws the generated mass can
exceed the spec's stated bound `10.75`.  With the scale draw and the mass
draw both `9/10`, the scale is `1.65` and the mass is
`5 + 0.9 * (5 + 1.65) = 10.985 ≥ 10.75`, so the produced values do not all
lie in the spec's stated ranges. -/
theorem c1_counterexample :
    ValidStream gMassHigh ∧
      ¬ specStatedRanges (generateRandomObjectParams gMassHigh 0) := by
  refine ⟨gMassHigh_valid, fun h => ?_⟩
  have hm := h.2.2.2.2.2.2.1.2
  rw [params_randomMass] at hm
  norm_num [gMassHigh] at hm

/-- Claim C1, amended: for every call of `generateRandomObjectParams` on
valid draws, scale ∈ [0.75, 1.75), radius = scale · 0.75, length ∈ [1, 3),
position.x and position.z ∈ [-5, 5), position.y ∈ [20, 45), mass ∈
[5, 5 + (5 + scale)) — hence mass < 11.75, not the claimed 10.75 — and
rotation components x, y, z each ∈ [0, 360) with w fixed at 1. -/
theorem c1_param_ranges (g : ℕ → ℚ) (i : ℕ) (hg : ValidStream g) :
    (0.75 ≤ (generateRandomObjectParams g i).randomScale ∧
      (generateRandomObjectParams g i).randomScale < 1.75) ∧
    (generateRandomObjectParams g i).randomRadius
      = (generateRandomObjectParams g i).randomScale * 0.75 ∧
    (1 ≤ (generateRandomObjectParams g i).randomLength ∧
      (generateRandomObjectParams g i).randomLength < 3) ∧
    (-5 ≤ (generateRandomObjectParams g i).randomX ∧
      (generateRandomObjectParams g i).randomX < 5) ∧
    (-5 ≤ (generateRandomObjectParams g i).randomZ ∧
      (generateRandomObjectParams g i).randomZ < 5) ∧
    (20 ≤ (generateRandomObjectParams g i).randomY ∧
      (generateRandomObjectParams g i).randomY < 45) ∧
    (5 ≤ (generateRandomObjectParams g i).randomMass ∧
      (generateRandomObjectParams g i).randomMass
        < 5 + (5 + (generateRandomObjectParams g i).randomScale) ∧
      (generateRandomObjectParams g i).randomMass < 11.75) ∧
    (0 ≤ (generateRandomObjectParams g i).randomQuaternion.x ∧
      (generateRandomObjectParams g i).randomQuaternion.x < 360) ∧
    (0 ≤ (generateRandomObjectParams g i).randomQuaternion.y ∧
      (generateRandomObjectParams g i).randomQuaternion.y < 360) ∧
    (0 ≤ (generateRandomObjectParams g i).randomQuaternion.z ∧
      (generateRandomObjectParams g i).randomQuaternion.z < 360) ∧
    (generateRandomObjectParams g i).randomQuaternion.w = 1 := by
  obtain ⟨h1, h1'⟩ := hg (i+1)
  obtain ⟨h2, h2'⟩ := hg (i+2)
  obtain ⟨h3, h3'⟩ := hg (i+3)
  obtain ⟨h4, h4'⟩ := hg (i+4)
  obtain ⟨h5, h5'⟩ := hg (i+5)
  obtain ⟨h6, h6'⟩ := hg (i+6)
  obtain ⟨h7, h7'⟩ := hg (i+7)
  obtain ⟨h8, h8'⟩ := hg (i+8)
  obtain ⟨h9, h9'⟩ := hg (i+9)
  simp only [params_randomScale, params_randomRadius, params_randomLength,
    params_randomX, params_randomY, params_randomZ, params_randomMass,
    params_randomQuaternion]
  refine ⟨⟨by linarith, by linarith⟩, trivial, ⟨by linarith, by linarith⟩,
    ⟨by linarith, by linarith⟩, ⟨by linarith, by linarith⟩,
    ⟨by linarith, by linarith⟩, ⟨by nlinarith, by nlinarith, by nlinarith⟩,
    ⟨by linarith, by linarith⟩, ⟨by linarith, by linarith⟩,
    ⟨by linarith, by linarith⟩, trivial⟩

/-- Witness for `c1_param_ranges` at the all-halves stream. -/
theorem c1_param_ranges_witness :
    ValidStream gHalf ∧
      (5 ≤ (generateRandomObjectParams gHalf 0).randomMass ∧
        (generateRandomObjectParams gHalf 0).randomMass
          < 5 + (5 + (generateRandomObjectParams gHalf 0).randomScale) ∧
        (generateRandomObjectParams gHalf 0).randomMass < 11.75) :=
  ⟨gHalf_valid, (c1_param_ranges gHalf 0 gHalf_valid).2.2.2.2.2.2.1⟩

/-! ## Claim C10 -/

/-- Claim C10: every keypress event — including R, F, G and keys mapped to
no action — first evaluates `generateRandomObjectParams()`, consuming one
full parameter set of `paramsDraws = 10` `Math.random()` draws before
dispatching on the key code (`Space` consumes one further draw for the
shape choice); in particular an unmapped key leaves the whole application
state unchanged while the randomness state is still advanced. -/
theorem c10_keypress_consumes_draws (st : AppState) (code : KeyCode)
    (g : ℕ → ℚ) (i : ℕ) :
    (handleKeypress st code g i).2
      = i + paramsDraws + (if code = KeyCode.space then 1 else 0) ∧
    paramsDraws = 10 ∧
    (handleKeypress st KeyCode.other g i).1 = st := by
  cases code <;> simp [handleKeypress, paramsDraws]

/-! ## Claim C2 -/

/-- `tmpRigidBodies.filter(r => r !== null)` after nulling the non-floor
entries is the floor-named sublist of the registry. -/
theorem filterMap_keep_floor (l : List SimObject) :
    (l.map fun rigidBody =>
        if rigidBody.name != "floor" then none else some rigidBody).filterMap
        id
      = l.filter fun r => r.name == "floor" := by
  induction l with
  | nil => rfl
  | cons a t ih =>
      by_cases ha : a.name = "floor" <;>
        simp [List.filter_cons, List.filterMap_cons, ha] <;>
        simpa using ih

/-- The registry after the `KeyR` handler is the floor-named sublist. -/
theorem removeNonFloor_rigidBodies (E : EngineState) :
    (removeNonFloor E).rigidBodies
      = E.rigidBodies.filter fun r => r.name == "floor" :=
  filterMap_keep_floor E.rigidBodies

/-- Claim C2: pressing R removes every object whose name is not `'floor'` —
its mesh is gone from the scene, its body is gone from the physics world,
and it is gone from the registry — and afterwards the registry is exactly
the floor-named sublist of the old registry, in the old order, so the floor
count is unchanged and the non-floor count is `0`. -/
theorem c2_keyR_removes_non_floor (st : AppState) (g : ℕ → ℚ) (i : ℕ) :
    ((handleKeypress st KeyCode.keyR g i).1.engine.rigidBodies
        = st.engine.rigidBodies.filter fun r => r.name == "floor") ∧
    ((handleKeypress st KeyCode.keyR g i).1.engine.rigidBodies.filter
          fun r => r.name == "floor").length
      = (st.engine.rigidBodies.filter fun r => r.name == "floor").length ∧
    ((handleKeypress st KeyCode.keyR g i).1.engine.rigidBodies.filter
          fun r => r.name != "floor").length = 0 ∧
    ∀ o ∈ st.engine.rigidBodies, o.name ≠ "floor" →
      o.id ∉ (handleKeypress st KeyCode.keyR g i).1.engine.scene ∧
      o.id ∉ (handleKeypress st KeyCode.keyR g i).1.engine.physicsUniverse ∧
      o ∉ (handleKeypress st KeyCode.keyR g i).1.engine.rigidBodies := by
  show ((removeNonFloor st.engine).rigidBodies = _) ∧ _
  refine ⟨removeNonFloor_rigidBodies st.engine, ?_, ?_, ?_⟩
  · rw [show (handleKeypress st KeyCode.keyR g i).1.engine
        = removeNonFloor st.engine from rfl,
      removeNonFloor_rigidBodies, List.filter_filter]
    simp
  · rw [show (handleKeypress st KeyCode.keyR g i).1.engine
        = removeNonFloor st.engine from rfl,
      removeNonFloor_rigidBodies, List.filter_filter]
    simp only [List.length_eq_zero, List.filter_eq_nil_iff]
    intro a _
    by_cases ha : a.name == "floor" <;> simp [ha, bne]
  · rw [show (handleKeypress st KeyCode.keyR g i).1.engine
        = removeNonFloor st.engine from rfl]
    intro o ho hname
    have hBool : (st.engine.rigidBodies.any fun r =>
        r.name != "floor" && r.id == o.id) = true := by
      rw [List.any_eq_true]
      exact ⟨o, ho, by simp [bne, hname]⟩
    refine ⟨?_, ?_, ?_⟩
    · intro hmem
      rw [removeNonFloor, List.mem_filter] at hmem
      rw [hBool] at hmem
      simp at hmem
    · intro hmem
      rw [removeNonFloor, List.mem_filter] at hmem
      rw [hBool] at hmem
      simp at hmem
    · intro hmem
      rw [removeNonFloor_rigidBodies, List.mem_filter] at hmem
      exact hname (by simpa using hmem.2)

/-- The startup state with one box of mass 5 spawned at height 20. -/
def stApp1 : AppState :=
  { initApp with
      engine := (createBox initApp.engine (ScaleArg.num 1) ⟨0, 20, 0⟩
        ⟨0, 0, 0, 1⟩ 5 "box" 0).1 }

/-- The box object `stApp1` holds (id 5; the floor panels use 0–4). -/
def boxObj : SimObject :=
  ⟨"box", Shape.box ⟨1, 1, 1⟩, 0, ⟨0, 20, 0⟩, ⟨0, 0, 0, 1⟩, 5⟩

/-- Witness for `c2_keyR_removes_non_floor`: in `stApp1`, pressing R
removes the spawned box from the scene, the physics world and the
registry. -/
theorem c2_keyR_witness :
    boxObj ∈ stApp1.engine.rigidBodies ∧ boxObj.name ≠ "floor" ∧
    boxObj.id ∉ (handleKeypress stApp1 KeyCode.keyR gHalf 0).1.engine.scene ∧
    boxObj.id
      ∉ (handleKeypress stApp1 KeyCode.keyR gHalf 0).1.engine.physicsUniverse ∧
    boxObj ∉ (handleKeypress stApp1 KeyCode.keyR gHalf 0).1.engine.rigidBodies := by
  have hmem : boxObj ∈ stApp1.engine.rigidBodies :=
    List.mem_append_right _ (List.mem_singleton_self _)
  have hname : boxObj.name ≠ "floor" := by decide
  obtain ⟨ha, hb, hc⟩ :=
    (c2_keyR_removes_non_floor stApp1 gHalf 0).2.2.2 boxObj hmem hname
  exact ⟨hmem, hname, ha, hb, hc⟩

/-! ## Claims C3, C4, C6: the per-frame sync -/

/-- A trivial physics step (the world reports unchanged transforms), used
to instantiate the opaque `stepSimulation` in witnesses. -/
def stepId : StepFn := fun _ _ _ bodies => bodies

/-- The synced registry is the pointwise image of the old registry. -/
theorem updatePhysics_rigidBodies (stepFn : StepFn) (E : EngineState)
    (d : ℚ) :
    (updatePhysics stepFn E d).1.rigidBodies
      = E.rigidBodies.map fun o =>
          (syncOne (stepFn d 10 E.physicsUniverse E.bodies) o).1 := by
  simp [updatePhysics]

/-- The event lists the per-object syncs produce, flattened, are exactly
one `syncTransform` per object whose body has a motion state, in registry
order. -/
theorem sync_events_eq (B : ℕ → Option PhysBody) (l : List SimObject) :
    ((l.map (syncOne B)).map Prod.snd).flatten
      = (l.filter fun o => (motionStateOf B o.id).isSome).map
          fun o => FrameEvent.syncTransform o.id := by
  induction l with
  | nil => rfl
  | cons a t ih =>
      cases ha : motionStateOf B a.id <;>
        simp [syncOne, ha, List.filter_cons] <;>
        simpa [List.map_map] using ih

/-- The full event trace of one `render` tick: the step, one sync event per
object whose body has a motion state (in registry order), the render, the
optional callback, and the rescheduling. -/
theorem render_events (stepFn : StepFn) (E : EngineState) (d : ℚ) :
    (render stepFn E d).2
      = FrameEvent.stepSimulation d 10
          :: ((E.rigidBodies.filter fun o =>
                (motionStateOf (stepFn d 10 E.physicsUniverse E.bodies)
                  o.id).isSome).map fun o => FrameEvent.syncTransform o.id)
          ++ [FrameEvent.renderScene]
          ++ (if E.renderCallback then [FrameEvent.renderCallback] else [])
          ++ [FrameEvent.requestAnimationFrame] := by
  have h := sync_events_eq (stepFn d 10 E.physicsUniverse E.bodies)
    E.rigidBodies
  show (FrameEvent.stepSimulation d 10
      :: ((E.rigidBodies.map
            (syncOne (stepFn d 10 E.physicsUniverse E.bodies))).map
          Prod.snd).flatten)
      ++ [FrameEvent.renderScene]
      ++ (if E.renderCallback then [FrameEvent.renderCallback] else [])
      ++ [FrameEvent.requestAnimationFrame] = _
  rw [h]

/-- Claim C3: immediately after one `updatePhysics` step, every registry
object whose body has a motion state carries exactly the position and
rotation of that body's motion-state world transform; and the sync is
one-way — the resulting body heap is exactly the `stepSimulation` output
and the world membership is untouched, so nothing flows from visuals back
into physics. -/
theorem c3_sync_is_physics_authoritative (stepFn : StepFn)
    (E : EngineState) (d : ℚ) :
    (∀ (i : ℕ) (o : SimObject) (t : Transform),
        E.rigidBodies[i]? = some o →
        motionStateOf (stepFn d 10 E.physicsUniverse E.bodies) o.id = some t →
        (updatePhysics stepFn E d).1.rigidBodies[i]?
          = some { o with position := t.origin, quaternion := t.rotation }) ∧
    (updatePhysics stepFn E d).1.bodies
      = stepFn d 10 E.physicsUniverse E.bodies ∧
    (updatePhysics stepFn E d).1.physicsUniverse = E.physicsUniverse ∧
    (updatePhysics stepFn E d).1.scene = E.scene := by
  refine ⟨?_, rfl, rfl, rfl⟩
  intro i o t ho ht
  rw [updatePhysics_rigidBodies, List.getElem?_map, ho]
  simp [syncOne, ht]

/-- Witness for `c3_sync_is_physics_authoritative`: the first floor panel,
under a physics step that reports unchanged transforms. -/
theorem c3_sync_witness :
    (updatePhysics stepId (makeFloor initEngine) 0).1.rigidBodies[0]?
      = some { name := "floor", geometry := Shape.box ⟨22, 7, 1⟩,
               color := 0xcccccc, position := ⟨0, 2, 11⟩,
               quaternion := ⟨0.25, 0, 0, 1⟩, id := 0 } :=
  (c3_sync_is_physics_authoritative stepId (makeFloor initEngine) 0).1 0
    { name := "floor", geometry := Shape.box ⟨22, 7, 1⟩, color := 0xcccccc,
      position := ⟨0, 2, 11⟩, quaternion := ⟨0, 0, 0, 1⟩, id := 0 }
    ⟨⟨0, 2, 11⟩, ⟨0.25, 0, 0, 1⟩⟩ rfl rfl

/-- Claim C4: one tick of `Engine.render`, given the elapsed `deltaTime`
and assuming every registered body reports a motion state, performs in
order: one `stepSimulation(deltaTime, 10)` call, one transform copy per
registry object in registry order, one scene render, the optional
post-frame callback exactly when one is set, and one
`requestAnimationFrame` rescheduling; the resulting registry is the
pointwise sync of the old one. -/
theorem c4_render_tick_order (stepFn : StepFn) (E : EngineState) (d : ℚ)
    (h : ∀ o ∈ E.rigidBodies,
        (motionStateOf (stepFn d 10 E.physicsUniverse E.bodies) o.id).isSome
          = true) :
    (render stepFn E d).2
      = FrameEvent.stepSimulation d 10
          :: (E.rigidBodies.map fun o => FrameEvent.syncTransform o.id)
          ++ [FrameEvent.renderScene]
          ++ (if E.renderCallback then [FrameEvent.renderCallback] else [])
          ++ [FrameEvent.requestAnimationFrame] ∧
    (render stepFn E d).1.rigidBodies
      = E.rigidBodies.map fun o =>
          (syncOne (stepFn d 10 E.physicsUniverse E.bodies) o).1 := by
  constructor
  · rw [render_events, List.filter_eq_self.mpr h]
  · exact updatePhysics_rigidBodies stepFn E d

/-- Witness for `c4_render_tick_order`: the startup floor scene under a
step that reports unchanged transforms; all five panels have motion
states. -/
theorem c4_render_tick_witness :
    (render stepId (makeFloor initEngine) 0).2
      = FrameEvent.stepSimulation 0 10
          :: ((makeFloor initEngine).rigidBodies.map
              fun o => FrameEvent.syncTransform o.id)
          ++ [FrameEvent.renderScene]
          ++ (if (makeFloor initEngine).renderCallback then
                [FrameEvent.renderCallback] else [])
          ++ [FrameEvent.requestAnimationFrame] :=
  (c4_render_tick_order stepId (makeFloor initEngine) 0 (by decide)).1

/-- Claim C6: during the per-frame sync, an object whose body lacks a
motion state is skipped — its mesh transform is left untouched — while
every other object is still synced, and the frame still renders, fires the
callback when set, and reschedules: the trace is one `syncTransform` per
object that does have a motion state, followed by the render, optional
callback and `requestAnimationFrame` events. -/
theorem c6_missing_motion_state_skips_object (stepFn : StepFn)
    (E : EngineState) (d : ℚ) :
    (∀ (i : ℕ) (o : SimObject), E.rigidBodies[i]? = some o →
        motionStateOf (stepFn d 10 E.physicsUniverse E.bodies) o.id = none →
        (render stepFn E d).1.rigidBodies[i]? = some o) ∧
    (∀ (i : ℕ) (o : SimObject) (t : Transform),
        E.rigidBodies[i]? = some o →
        motionStateOf (stepFn d 10 E.physicsUniverse E.bodies) o.id = some t →
        (render stepFn E d).1.rigidBodies[i]?
          = some { o with position := t.origin, quaternion := t.rotation }) ∧
    (render stepFn E d).2
      = FrameEvent.stepSimulation d 10
          :: ((E.rigidBodies.filter fun o =>
                (motionStateOf (stepFn d 10 E.physicsUniverse E.bodies)
                  o.id).isSome).map fun o => FrameEvent.syncTransform o.id)
          ++ [FrameEvent.renderScene]
          ++ (if E.renderCallback then [FrameEvent.renderCallback] else [])
          ++ [FrameEvent.requestAnimationFrame] := by
  refine ⟨?_, ?_, render_events stepFn E d⟩
  · intro i o ho hnone
    show (updatePhysics stepFn E d).1.rigidBodies[i]? = some o
    rw [updatePhysics_rigidBodies, List.getElem?_map, ho]
    simp [syncOne, hnone]
  · intro i o t ho ht
    show (updatePhysics stepFn E d).1.rigidBodies[i]? = _
    rw [updatePhysics_rigidBodies, List.getElem?_map, ho]
    simp [syncOne, ht]

/-- A body heap whose body 0 has no motion state and whose body 1 has one,
with a registry entry for each, exercising the skip path. -/
def mixedEngine : EngineState :=
  { scene := [0, 1], physicsUniverse := [0, 1],
    bodies := fun n =>
      if n = 0 then
        some { mass := 1, restitution := 0.75, margin := 0.05,
               shape := Shape.sphere 1, motionState := none }
      else if n = 1 then
        some { mass := 1, restitution := 0.75, margin := 0.05,
               shape := Shape.sphere 1,
               motionState := some ⟨⟨3, 4, 5⟩, ⟨0, 0, 0, 1⟩⟩ }
      else none,
    rigidBodies :=
      [{ name := "sphere", geometry := Shape.sphere 1, color := 0,
         position := ⟨0, 0, 0⟩, quaternion := ⟨0, 0, 0, 1⟩, id := 0 },
       { name := "sphere", geometry := Shape.sphere 1, color := 0,
         position := ⟨0, 0, 0⟩, quaternion := ⟨0, 0, 0, 1⟩, id := 1 }],
    renderCallback := true, nextId := 2 }

/-- Witness for `c6_missing_motion_state_skips_object`: in `mixedEngine`
the motion-state-less object 0 is left untouched while object 1 is synced
to its body's transform. -/
theorem c6_missing_motion_state_witness :
    (render stepId mixedEngine 0).1.rigidBodies[0]?
      = some { name := "sphere", geometry := Shape.sphere 1, color := 0,
               position := ⟨0, 0, 0⟩, quaternion := ⟨0, 0, 0, 1⟩, id := 0 } ∧
    (render stepId mixedEngine 0).1.rigidBodies[1]?
      = some { name := "sphere", geometry := Shape.sphere 1, color := 0,
               position := ⟨3, 4, 5⟩, quaternion := ⟨0, 0, 0, 1⟩, id := 1 } :=
  ⟨(c6_missing_motion_state_skips_object stepId mixedEngine 0).1 0
      { name := "sphere", geometry := Shape.sphere 1, color := 0,
        position := ⟨0, 0, 0⟩, quaternion := ⟨0, 0, 0, 1⟩, id := 0 } rfl rfl,
   (c6_missing_motion_state_skips_object stepId mixedEngine 0).2.1 1
      { name := "sphere", geometry := Shape.sphere 1, color := 0,
        position := ⟨0, 0, 0⟩, quaternion := ⟨0, 0, 0, 1⟩, id := 1 }
      ⟨⟨3, 4, 5⟩, ⟨0, 0, 0, 1⟩⟩ rfl rfl⟩

/-! ## Claim C7 -/

/-- The `randomInt(3)` draw partitions the unit interval into three
half-open thirds, one per outcome. -/
theorem randomInt3_cases (r : ℚ) (h0 : 0 ≤ r) (h1 : r < 1) :
    (randomInt 3 0 r = 0 ∧ r < 1/3) ∨
    (randomInt 3 0 r = 1 ∧ 1/3 ≤ r ∧ r < 2/3) ∨
    (randomInt 3 0 r = 2 ∧ 2/3 ≤ r) := by
  have hval : randomInt 3 0 r = ⌊r * 3⌋ := by
    simp [randomInt]
  rcases lt_or_le r (1/3) with ha | ha
  · left
    refine ⟨?_, ha⟩
    rw [hval, Int.floor_eq_zero_iff]
    constructor
    · positivity
    · linarith
  · rcases lt_or_le r (2/3) with hb | hb
    · right; left
      refine ⟨?_, ha, hb⟩
      rw [hval, Int.floor_eq_iff]
      push_cast
      constructor <;> linarith
    · right; right
      refine ⟨?_, hb⟩
      rw [hval, Int.floor_eq_iff]
      push_cast
      constructor <;> linarith

/-- Claim C7: pressing Space (the `generateRandomObject` path) appends
exactly one object to the registry (and its mesh to the scene and its body
to the world); the kind is chosen by a uniform integer draw over `{0,1,2}`
— each outcome's preimage is a third of the unit interval, so each of
capsule, sphere, box has probability 1/3 — and every branch builds its
object from the same shared `rp` record drawn before the choice (same
position, color, mass and creation quaternion in all three branches). -/
theorem c7_space_spawns_uniformly (E : EngineState)
    (rp : RandomObjectParams) (r : ℚ) (h0 : 0 ≤ r) (h1 : r < 1) :
    ∃ o : SimObject,
      (generateRandomObject E rp r).rigidBodies = E.rigidBodies ++ [o] ∧
      (generateRandomObject E rp r).scene = E.scene ++ [o.id] ∧
      (generateRandomObject E rp r).physicsUniverse
        = E.physicsUniverse ++ [o.id] ∧
      o.position = ⟨rp.randomX, rp.randomY, rp.randomZ⟩ ∧
      o.color = rp.randomColor ∧
      (generateRandomObject E rp r).bodies o.id
        = some { mass := rp.randomMass, restitution := 0.75, margin := 0.05,
                 shape := o.geometry,
                 motionState := some ⟨⟨rp.randomX, rp.randomY, rp.randomZ⟩,
                   rp.randomQuaternion⟩ } ∧
      ((randomInt 3 0 r = 0 ∧ (0 ≤ r ∧ r < 1/3) ∧ o.name = "capsule" ∧
          o.geometry = Shape.capsule (rp.randomRadius / 2) rp.randomLength) ∨
       (randomInt 3 0 r = 1 ∧ (1/3 ≤ r ∧ r < 2/3) ∧ o.name = "sphere" ∧
          o.geometry = Shape.sphere rp.randomRadius) ∨
       (randomInt 3 0 r = 2 ∧ (2/3 ≤ r ∧ r < 1) ∧ o.name = "box" ∧
          o.geometry
            = Shape.box ⟨rp.randomScale, rp.randomScale, rp.randomScale⟩)) := by
  rcases randomInt3_cases r h0 h1 with ⟨hk, hr⟩ | ⟨hk, hr1, hr2⟩ | ⟨hk, hr⟩
  · refine ⟨⟨"capsule", Shape.capsule (rp.randomRadius / 2) rp.randomLength,
      rp.randomColor, ⟨rp.randomX, rp.randomY, rp.randomZ⟩, ⟨0, 0, 0, 1⟩,
      E.nextId⟩,
      ?_, ?_, ?_, rfl, rfl, ?_, Or.inl ⟨hk, ⟨h0, hr⟩, rfl, rfl⟩⟩ <;>
      simp [generateRandomObject, hk, createCapsule, resolveScale]
  · refine ⟨⟨"sphere", Shape.sphere rp.randomRadius,
      rp.randomColor, ⟨rp.randomX, rp.randomY, rp.randomZ⟩, ⟨0, 0, 0, 1⟩,
      E.nextId⟩,
      ?_, ?_, ?_, rfl, rfl, ?_, Or.inr (Or.inl ⟨hk, ⟨hr1, hr2⟩, rfl, rfl⟩)⟩ <;>
      simp [generateRandomObject, hk, createSphere]
  · refine ⟨⟨"box", Shape.box ⟨rp.randomScale, rp.randomScale, rp.randomScale⟩,
      rp.randomColor, ⟨rp.randomX, rp.randomY, rp.randomZ⟩, ⟨0, 0, 0, 1⟩,
      E.nextId⟩,
      ?_, ?_, ?_, rfl, rfl, ?_, Or.inr (Or.inr ⟨hk, ⟨hr, h1⟩, rfl, rfl⟩)⟩ <;>
      simp [generateRandomObject, hk, createBox, resolveScale]

/-- Witness for `c7_space_spawns_uniformly` at the draw `1/2` (the sphere
branch) on the empty engine. -/
theorem c7_space_spawns_witness :
    (0:ℚ) ≤ 1/2 ∧ (1/2:ℚ) < 1 ∧
    ∃ o : SimObject,
      (generateRandomObject initEngine (generateRandomObjectParams gHalf 0)
          (1/2)).rigidBodies = initEngine.rigidBodies ++ [o] ∧
      o.name = "sphere" :=
  ⟨by norm_num, by norm_num, by
    obtain ⟨o, h1, _, _, _, _, _, hcase⟩ :=
      c7_space_spawns_uniformly initEngine
        (generateRandomObjectParams gHalf 0) (1/2) (by norm_num) (by norm_num)
    refine ⟨o, h1, ?_⟩
    rcases hcase with ⟨_, ⟨_, hr⟩, _, _⟩ | ⟨_, _, hname, _⟩ | ⟨_, ⟨hr, _⟩, _, _⟩
    · exact absurd hr (by norm_num)
    · exact hname
    · exact absurd hr (by norm_num)⟩

/-! ## Claim C8 -/

/-- Claim C8: a capsule spawn (key C, and likewise the random path's
capsule branch) passes `randomRadius / 2 = scale * 0.375` as the capsule
radius — in `[0.28125, 0.65625)` for valid draws — while a sphere spawn
passes the full `randomRadius = scale * 0.75`; and `createCapsule` returns
no handle (`none`, no `return` statement) while `createBox` and
`createSphere` return the created mesh. -/
theorem c8_capsule_radius_halved (st : AppState) (g : ℕ → ℚ) (i : ℕ)
    (hg : ValidStream g) :
    ((handleKeypress st KeyCode.keyC g i).1.engine.rigidBodies
      = st.engine.rigidBodies
        ++ [{ name := "capsule",
              geometry := Shape.capsule
                ((generateRandomObjectParams g i).randomRadius / 2)
                (generateRandomObjectParams g i).randomLength,
              color := (generateRandomObjectParams g i).randomColor,
              position := ⟨(generateRandomObjectParams g i).randomX,
                (generateRandomObjectParams g i).randomY,
                (generateRandomObjectParams g i).randomZ⟩,
              quaternion := ⟨0, 0, 0, 1⟩, id := st.engine.nextId }]) ∧
    (generateRandomObjectParams g i).randomRadius / 2
      = (generateRandomObjectParams g i).randomScale * 0.375 ∧
    (0.28125 ≤ (generateRandomObjectParams g i).randomRadius / 2 ∧
      (generateRandomObjectParams g i).randomRadius / 2 < 0.65625) ∧
    ((handleKeypress st KeyCode.keyS g i).1.engine.rigidBodies
      = st.engine.rigidBodies
        ++ [{ name := "sphere",
              geometry := Shape.sphere
                (generateRandomObjectParams g i).randomRadius,
              color := (generateRandomObjectParams g i).randomColor,
              position := ⟨(generateRandomObjectParams g i).randomX,
                (generateRandomObjectParams g i).randomY,
                (generateRandomObjectParams g i).randomZ⟩,
              quaternion := ⟨0, 0, 0, 1⟩, id := st.engine.nextId }]) ∧
    (generateRandomObjectParams g i).randomRadius
      = (generateRandomObjectParams g i).randomScale * 0.75 ∧
    (∀ (E : EngineState) (radius length : ℚ) (p : Vec3) (q : Quat)
        (m : ℚ) (name : String) (c : ℚ),
      (createCapsule E radius length p q m name c).2 = none) ∧
    (∀ (E : EngineState) (s : ScaleArg) (p : Vec3) (q : Quat)
        (m : ℚ) (name : String) (c : ℚ),
      (createBox E s p q m name c).2 ≠ none) ∧
    (∀ (E : EngineState) (radius : ℚ) (p : Vec3) (q : Quat)
        (m : ℚ) (name : String) (c : ℚ),
      (createSphere E radius p q m name c).2 ≠ none) := by
  obtain ⟨h1, h1'⟩ := hg (i+1)
  refine ⟨rfl, ?_, ?_, rfl, ?_, fun _ _ _ _ _ _ _ _ => rfl,
    fun _ _ _ _ _ _ _ => by simp [createBox],
    fun _ _ _ _ _ _ _ => by simp [createSphere]⟩
  · rw [params_randomRadius, params_randomScale]
    ring
  · rw [params_randomRadius]
    constructor <;> nlinarith
  · rw [params_randomRadius, params_randomScale]

/-- Witness for `c8_capsule_radius_halved` at the all-halves stream: the
generated capsule radius is `(0.75 + 1/2) * 0.75 / 2 = 0.46875`. -/
theorem c8_capsule_radius_witness :
    ValidStream gHalf ∧
    (0.28125 ≤ (generateRandomObjectParams gHalf 0).randomRadius / 2 ∧
      (generateRandomObjectParams gHalf 0).randomRadius / 2 < 0.65625) :=
  ⟨gHalf_valid, (c8_capsule_radius_halved initApp gHalf 0 gHalf_valid).2.2.1⟩

/-! ## Claims C5 and C9: floor lifecycle -/

/-- Spec maps agree on objects whose heap entries agree. -/
theorem map_objSpec_congr (b b' : ℕ → Option PhysBody) (l : List SimObject)
    (h : ∀ o ∈ l, b' o.id = b o.id) :
    l.map (objSpec b') = l.map (objSpec b) := by
  induction l with
  | nil => rfl
  | cons a t ih =>
      rw [List.map_cons, List.map_cons,
        ih fun o ho => h o (List.mem_cons_of_mem a ho)]
      have ha := h a (List.mem_cons_self a t)
      simp [objSpec, ha]

/-- Generic shape of the three create methods: appending one mesh/body pair
at the fresh id extends `floorSpecs` by that object's description exactly
when it is floor-named, and preserves `idBound`. -/
theorem floorSpecs_snoc (E : EngineState) (o : SimObject) (b : PhysBody)
    (E' : EngineState) (hE : idBound E)
    (hrb : E'.rigidBodies = E.rigidBodies ++ [o])
    (hbodies : E'.bodies = fun n => if n = E.nextId then some b else E.bodies n)
    (hid : o.id = E.nextId)
    (hnext : E'.nextId = E.nextId + 1) :
    floorSpecs E'
      = floorSpecs E
        ++ (if o.name == "floor" then [(o.name, o.color, o.geometry, some b)]
            else []) ∧
    idBound E' := by
  constructor
  · unfold floorSpecs floorObjects
    rw [hrb, List.filter_append, List.map_append]
    have h1 : (E.rigidBodies.filter fun r => r.name == "floor").map
        (objSpec E'.bodies)
        = (E.rigidBodies.filter fun r => r.name == "floor").map
          (objSpec E.bodies) := by
      apply map_objSpec_congr
      intro x hx
      have hxlt := hE x (List.mem_filter.mp hx).1
      rw [hbodies]
      simp [Nat.ne_of_lt hxlt]
    rw [h1]
    congr 1
    by_cases ho : o.name = "floor"
    · simp [List.filter_cons, ho, objSpec, hbodies, hid]
    · simp [List.filter_cons, ho]
  · intro x hx
    rw [hrb] at hx
    rw [hnext]
    rcases List.mem_append.mp hx with h | h
    · exact Nat.lt_succ_of_lt (hE x h)
    · rw [List.mem_singleton.mp h, hid]
      exact Nat.lt_succ_self _

/-- `makeFloor` appends exactly the five panel descriptions. -/
theorem floorSpecs_makeFloor (E : EngineState) (hE : idBound E) :
    floorSpecs (makeFloor E) = floorSpecs E ++ floorPanelSpecs ∧
    idBound (makeFloor E) := by
  obtain ⟨e1, i1⟩ := floorSpecs_snoc E
    ⟨"floor", Shape.box ⟨22, 7, 1⟩, 0xcccccc, ⟨0, 2, 11⟩, ⟨0, 0, 0, 1⟩,
      E.nextId⟩
    { mass := 0, restitution := 0.75, margin := 0.05,
      shape := Shape.box ⟨22, 7, 1⟩,
      motionState := some ⟨⟨0, 2, 11⟩, ⟨0.25, 0, 0, 1⟩⟩ }
    (createBox E (ScaleArg.vec ⟨22, 7, 1⟩) ⟨0, 2, 11⟩ ⟨0.25, 0, 0, 1⟩ 0
      "floor" 0xcccccc).1 hE rfl rfl rfl rfl
  obtain ⟨e2, i2⟩ := floorSpecs_snoc _
    ⟨"floor", Shape.box ⟨1, 7, 22⟩, 0xcccccc, ⟨-11, 2, 0⟩, ⟨0, 0, 0, 1⟩, _⟩
    { mass := 0, restitution := 0.75, margin := 0.05,
      shape := Shape.box ⟨1, 7, 22⟩,
      motionState := some ⟨⟨-11, 2, 0⟩, ⟨0, 0, 0.25, 1⟩⟩ }
    ((createBox _ (ScaleArg.vec ⟨1, 7, 22⟩) ⟨-11, 2, 0⟩ ⟨0, 0, 0.25, 1⟩ 0
      "floor" 0xcccccc).1) i1 rfl rfl rfl rfl
  obtain ⟨e3, i3⟩ := floorSpecs_snoc _
    ⟨"floor", Shape.box ⟨22, 7, 1⟩, 0xcccccc, ⟨0, 2, -11⟩, ⟨0, 0, 0, 1⟩, _⟩
    { mass := 0, restitution := 0.75, margin := 0.05,
      shape := Shape.box ⟨22, 7, 1⟩,
      motionState := some ⟨⟨0, 2, -11⟩, ⟨-0.25, 0, 0, 1⟩⟩ }
    ((createBox _ (ScaleArg.vec ⟨22, 7, 1⟩) ⟨0, 2, -11⟩ ⟨-0.25, 0, 0, 1⟩ 0
      "floor" 0xcccccc).1) i2 rfl rfl rfl rfl
  obtain ⟨e4, i4⟩ := floorSpecs_snoc _
    ⟨"floor", Shape.box ⟨1, 7, 22⟩, 0xcccccc, ⟨11, 2, 0⟩, ⟨0, 0, 0, 1⟩, _⟩
    { mass := 0, restitution := 0.75, margin := 0.05,
      shape := Shape.box ⟨1, 7, 22⟩,
      motionState := some ⟨⟨11, 2, 0⟩, ⟨0, 0, -0.25, 1⟩⟩ }
    ((createBox _ (ScaleArg.vec ⟨1, 7, 22⟩) ⟨11, 2, 0⟩ ⟨0, 0, -0.25, 1⟩ 0
      "floor" 0xcccccc).1) i3 rfl rfl rfl rfl
  obtain ⟨e5, i5⟩ := floorSpecs_snoc _
    ⟨"floor", Shape.box ⟨21, 2, 21⟩, 0xcccccc, ⟨0, 0, 0⟩, ⟨0, 0, 0, 1⟩, _⟩
    { mass := 0, restitution := 0.75, margin := 0.05,
      shape := Shape.box ⟨21, 2, 21⟩,
      motionState := some ⟨⟨0, 0, 0⟩, ⟨0, 0, 0, 1⟩⟩ }
    ((createBox _ (ScaleArg.vec ⟨21, 2, 21⟩) ⟨0, 0, 0⟩ ⟨0, 0, 0, 1⟩ 0
      "floor" 0xcccccc).1) i4 rfl rfl rfl rfl
  refine ⟨?_, i5⟩
  show floorSpecs (createBox _ _ _ _ _ _ _).1 = _
  rw [e5, e4, e3, e2, e1]
  simp [floorPanelSpecs]

/-- The `KeyF` removal branch drops every floor-named object from the
registry. -/
theorem removeFloor_rigidBodies (E : EngineState) :
    (removeFloor E).rigidBodies
      = E.rigidBodies.filter fun r => r.name != "floor" := by
  show (E.rigidBodies.map fun rigidBody =>
      if rigidBody.name == "floor" then none
      else some rigidBody).filterMap id = _
  induction E.rigidBodies with
  | nil => rfl
  | cons a t ih =>
      by_cases ha : a.name = "floor" <;>
        simp [List.filter_cons, List.filterMap_cons, ha] <;>
        simpa using ih

theorem floorSpecs_removeFloor (E : EngineState) (hE : idBound E) :
    floorSpecs (removeFloor E) = [] ∧ idBound (removeFloor E) := by
  constructor
  · unfold floorSpecs floorObjects
    rw [show (removeFloor E).bodies = E.bodies from rfl,
      removeFloor_rigidBodies]
    rw [List.filter_filter]
    rw [show (E.rigidBodies.filter fun r =>
        (r.name == "floor") && (r.name != "floor")) = [] from ?_]
    · rfl
    · apply List.eq_nil_iff_forall_not_mem.mpr
      intro x hx
      have := (List.mem_filter.mp hx).2
      simp at this
  · intro x hx
    rw [removeFloor_rigidBodies] at hx
    exact hE x (List.mem_filter.mp hx).1

theorem floorSpecs_removeNonFloor (E : EngineState) (hE : idBound E) :
    floorSpecs (removeNonFloor E) = floorSpecs E ∧
    idBound (removeNonFloor E) := by
  constructor
  · unfold floorSpecs floorObjects
    rw [show (removeNonFloor E).bodies = E.bodies from rfl,
      removeNonFloor_rigidBodies, List.filter_filter]
    congr 1
    apply List.filter_congr
    intro x _
    by_cases hx : x.name = "floor" <;> simp [hx]
  · intro x hx
    rw [removeNonFloor_rigidBodies] at hx
    exact hE x (List.mem_filter.mp hx).1

/-- A non-floor-named `createBox` call leaves the floor composition
unchanged. -/
theorem floorSpecs_createBox (E : EngineState) (s : ScaleArg) (p : Vec3)
    (q : Quat) (m : ℚ) (name : String) (c : ℚ) (hE : idBound E)
    (hname : (name == "floor") = false) :
    floorSpecs (createBox E s p q m name c).1 = floorSpecs E ∧
    idBound (createBox E s p q m name c).1 := by
  obtain ⟨e, i⟩ := floorSpecs_snoc E
    ⟨name, Shape.box (resolveScale s), c, p, ⟨0, 0, 0, 1⟩, E.nextId⟩
    { mass := m, restitution := 0.75, margin := 0.05,
      shape := Shape.box (resolveScale s), motionState := some ⟨p, q⟩ }
    (createBox E s p q m name c).1 hE rfl rfl rfl rfl
  refine ⟨?_, i⟩
  rw [e, hname]
  simp

/-- A non-floor-named `createCapsule` call leaves the floor composition
unchanged. -/
theorem floorSpecs_createCapsule (E : EngineState) (radius length : ℚ)
    (p : Vec3) (q : Quat) (m : ℚ) (name : String) (c : ℚ) (hE : idBound E)
    (hname : (name == "floor") = false) :
    floorSpecs (createCapsule E radius length p q m name c).1
      = floorSpecs E ∧
    idBound (createCapsule E radius length p q m name c).1 := by
  obtain ⟨e, i⟩ := floorSpecs_snoc E
    ⟨name, Shape.capsule radius length, c, p, ⟨0, 0, 0, 1⟩, E.nextId⟩
    { mass := m, restitution := 0.75, margin := 0.05,
      shape := Shape.capsule radius length, motionState := some ⟨p, q⟩ }
    (createCapsule E radius length p q m name c).1 hE rfl rfl rfl rfl
  refine ⟨?_, i⟩
  rw [e, hname]
  simp

/-- A non-floor-named `createSphere` call leaves the floor composition
unchanged. -/
theorem floorSpecs_createSphere (E : EngineState) (radius : ℚ) (p : Vec3)
    (q : Quat) (m : ℚ) (name : String) (c : ℚ) (hE : idBound E)
    (hname : (name == "floor") = false) :
    floorSpecs (createSphere E radius p q m name c).1 = floorSpecs E ∧
    idBound (createSphere E radius p q m name c).1 := by
  obtain ⟨e, i⟩ := floorSpecs_snoc E
    ⟨name, Shape.sphere radius, c, p, ⟨0, 0, 0, 1⟩, E.nextId⟩
    { mass := m, restitution := 0.75, margin := 0.05,
      shape := Shape.sphere radius, motionState := some ⟨p, q⟩ }
    (createSphere E radius p q m name c).1 hE rfl rfl rfl rfl
  refine ⟨?_, i⟩
  rw [e, hname]
  simp

/-- The random spawn never creates a floor-named object and respects the id
discipline. -/
theorem floorSpecs_generateRandomObject (E : EngineState)
    (rp : RandomObjectParams) (r : ℚ) (hE : idBound E) :
    floorSpecs (generateRandomObject E rp r) = floorSpecs E ∧
    idBound (generateRandomObject E rp r) := by
  by_cases h0 : randomInt 3 0 r = 0
  · have hgen : generateRandomObject E rp r
        = (createCapsule E (rp.randomRadius / 2) rp.randomLength
          ⟨rp.randomX, rp.randomY, rp.randomZ⟩ rp.randomQuaternion
          rp.randomMass "capsule" rp.randomColor).1 := by
      simp [generateRandomObject, h0]
    rw [hgen]
    exact floorSpecs_createCapsule E _ _ _ _ _ _ _ hE rfl
  · by_cases h1 : randomInt 3 0 r = 1
    · have hgen : generateRandomObject E rp r
          = (createSphere E rp.randomRadius
            ⟨rp.randomX, rp.randomY, rp.randomZ⟩ rp.randomQuaternion
            rp.randomMass "sphere" rp.randomColor).1 := by
        simp [generateRandomObject, h0, h1]
      rw [hgen]
      exact floorSpecs_createSphere E _ _ _ _ _ _ hE rfl
    · by_cases h2 : randomInt 3 0 r = 2
      · have hgen : generateRandomObject E rp r
            = (createBox E (ScaleArg.num rp.randomScale)
              ⟨rp.randomX, rp.randomY, rp.randomZ⟩ rp.randomQuaternion
              rp.randomMass "box" rp.randomColor).1 := by
          simp [generateRandomObject, h0, h1, h2]
        rw [hgen]
        exact floorSpecs_createBox E _ _ _ _ _ _ hE rfl
      · have hgen : generateRandomObject E rp r = E := by
          simp [generateRandomObject, h0, h1, h2]
        rw [hgen]
        exact ⟨rfl, hE⟩

/-- The floor-state invariant: the flag `floorIsShowing` matches the floor
composition of the registry — the five panels when set, nothing when
clear — and ids are well formed. -/
def FloorInv (st : AppState) : Prop :=
  idBound st.engine ∧
  floorSpecs st.engine
    = (if st.floorIsShowing then floorPanelSpecs else [])

theorem handleKeyF_floorInv (st : AppState) (h : FloorInv st) :
    FloorInv (handleKeyF st) := by
  obtain ⟨hid, hspec⟩ := h
  unfold handleKeyF
  cases hfs : st.floorIsShowing
  · rw [hfs] at hspec
    simp only [if_neg Bool.false_ne_true] at hspec
    obtain ⟨e, i'⟩ := floorSpecs_makeFloor st.engine hid
    rw [Bool.not_false, if_pos rfl]
    refine ⟨i', ?_⟩
    show floorSpecs (makeFloor st.engine) = _
    rw [e, hspec]
    simp
  · rw [hfs] at hspec
    rw [Bool.not_true, if_neg Bool.false_ne_true]
    obtain ⟨e, i'⟩ := floorSpecs_removeFloor st.engine hid
    refine ⟨i', ?_⟩
    show floorSpecs (removeFloor st.engine)
        = if (false : Bool) = true then floorPanelSpecs else []
    rw [if_neg Bool.false_ne_true, e]

theorem handleKeypress_floorInv (st : AppState) (code : KeyCode)
    (g : ℕ → ℚ) (i : ℕ) (h : FloorInv st) :
    FloorInv (handleKeypress st code g i).1 := by
  obtain ⟨hid, hspec⟩ := h
  cases code
  case keyS =>
      obtain ⟨e, i'⟩ := floorSpecs_createSphere st.engine
        (generateRandomObjectParams g i).randomRadius
        ⟨(generateRandomObjectParams g i).randomX,
          (generateRandomObjectParams g i).randomY,
          (generateRandomObjectParams g i).randomZ⟩
        (generateRandomObjectParams g i).randomQuaternion
        (generateRandomObjectParams g i).randomMass "sphere"
        (generateRandomObjectParams g i).randomColor hid rfl
      exact ⟨i', e.trans hspec⟩
  case keyB =>
      obtain ⟨e, i'⟩ := floorSpecs_createBox st.engine
        (ScaleArg.num (generateRandomObjectParams g i).randomScale)
        ⟨(generateRandomObjectParams g i).randomX,
          (generateRandomObjectParams g i).randomY,
          (generateRandomObjectParams g i).randomZ⟩
        (generateRandomObjectParams g i).randomQuaternion
        (generateRandomObjectParams g i).randomMass "box"
        (generateRandomObjectParams g i).randomColor hid rfl
      exact ⟨i', e.trans hspec⟩
  case keyC =>
      obtain ⟨e, i'⟩ := floorSpecs_createCapsule st.engine
        ((generateRandomObjectParams g i).randomRadius / 2)
        (generateRandomObjectParams g i).randomLength
        ⟨(generateRandomObjectParams g i).randomX,
          (generateRandomObjectParams g i).randomY,
          (generateRandomObjectParams g i).randomZ⟩
        (generateRandomObjectParams g i).randomQuaternion
        (generateRandomObjectParams g i).randomMass "capsule"
        (generateRandomObjectParams g i).randomColor hid rfl
      exact ⟨i', e.trans hspec⟩
  case space =>
      obtain ⟨e, i'⟩ := floorSpecs_generateRandomObject st.engine
        (generateRandomObjectParams g i) (g (i + paramsDraws)) hid
      exact ⟨i', e.trans hspec⟩
  case keyR =>
      obtain ⟨e, i'⟩ := floorSpecs_removeNonFloor st.engine hid
      exact ⟨i', e.trans hspec⟩
  case keyF => exact handleKeyF_floorInv st ⟨hid, hspec⟩
  case keyG =>
      have he : (handleKeypress st KeyCode.keyG g i).1.engine = st.engine := by
        by_cases hint : st.intervalRef <;> simp [handleKeypress, hint]
      have hf : (handleKeypress st KeyCode.keyG g i).1.floorIsShowing
          = st.floorIsShowing := by
        by_cases hint : st.intervalRef <;> simp [handleKeypress, hint]
      unfold FloorInv
      rw [he, hf]
      exact ⟨hid, hspec⟩
  case other => exact ⟨hid, hspec⟩

theorem stepApp_floorInv (g : ℕ → ℚ) (p : AppState × ℕ) (ev : AppEvent)
    (h : FloorInv p.1) : FloorInv (stepApp g p ev).1 := by
  obtain ⟨st, i⟩ := p
  cases ev
  case key c => exact handleKeypress_floorInv st c g i h
  case timerTick =>
      cases hint : st.intervalRef
      · have hstep : stepApp g (st, i) AppEvent.timerTick = (st, i) := by
          simp [stepApp, hint]
        rw [hstep]
        exact h
      · have he : (stepApp g (st, i) AppEvent.timerTick).1.engine
            = generateRandomObject st.engine (generateRandomObjectParams g i)
              (g (i + paramsDraws)) := by
          simp [stepApp, hint]
        have hf : (stepApp g (st, i) AppEvent.timerTick).1.floorIsShowing
            = st.floorIsShowing := by
          simp [stepApp, hint]
        obtain ⟨e, i'⟩ := floorSpecs_generateRandomObject st.engine
          (generateRandomObjectParams g i) (g (i + paramsDraws)) h.1
        unfold FloorInv
        rw [he, hf]
        exact ⟨i', e.trans h.2⟩

theorem foldl_floorInv (g : ℕ → ℚ) (evs : List AppEvent) :
    ∀ p : AppState × ℕ, FloorInv p.1 →
      FloorInv (evs.foldl (stepApp g) p).1 := by
  induction evs with
  | nil => exact fun p h => h
  | cons ev t ih =>
      intro p h
      exact ih (stepApp g p ev) (stepApp_floorInv g p ev h)

theorem initApp_floorInv : FloorInv initApp := by
  have h0 : idBound initEngine := fun o ho => absurd ho (List.not_mem_nil o)
  obtain ⟨e, i⟩ := floorSpecs_makeFloor initEngine h0
  exact ⟨i, by rw [show initApp.engine = makeFloor initEngine from rfl, e]; rfl⟩

/-- Claim C9: after startup and under every sequence of delivered events
(keypresses of any key and auto-spawn timer firings), the flag
`floorIsShowing` is `true` exactly when the registry's floor-named objects
are the 5 panels of `makeFloor` (same names, dimensions, transforms, zero
mass and color) and `false` exactly when there are none: spawns never
create floor-named objects, key R preserves the floor, and key F flips the
flag together with removing or recreating all 5 panels. -/
theorem c9_floorIsShowing_invariant (g : ℕ → ℚ) (evs : List AppEvent) :
    ((evs.foldl (stepApp g) (initApp, 0)).1.floorIsShowing = true ∧
      floorSpecs (evs.foldl (stepApp g) (initApp, 0)).1.engine
        = floorPanelSpecs ∧
      (floorObjects (evs.foldl (stepApp g) (initApp, 0)).1.engine).length
        = 5) ∨
    ((evs.foldl (stepApp g) (initApp, 0)).1.floorIsShowing = false ∧
      floorSpecs (evs.foldl (stepApp g) (initApp, 0)).1.engine = [] ∧
      (floorObjects (evs.foldl (stepApp g) (initApp, 0)).1.engine).length
        = 0) := by
  obtain ⟨hid, hspec⟩ := foldl_floorInv g evs (initApp, 0) initApp_floorInv
  have hlen : (floorObjects (evs.foldl (stepApp g) (initApp, 0)).1.engine).length
      = (floorSpecs (evs.foldl (stepApp g) (initApp, 0)).1.engine).length := by
    unfold floorSpecs
    rw [List.length_map]
  cases hfs : (evs.foldl (stepApp g) (initApp, 0)).1.floorIsShowing
  · right
    rw [hfs] at hspec
    simp only [if_neg Bool.false_ne_true] at hspec
    exact ⟨rfl, hspec, by rw [hlen, hspec]; rfl⟩
  · left
    rw [hfs] at hspec
    simp only [if_pos rfl] at hspec
    exact ⟨rfl, hspec, by rw [hlen, hspec]; rfl⟩

/-- The five makeFloor panels are all floor-named, so the non-floor sublist
of the registry is unchanged by `makeFloor`. -/
theorem nonFloor_makeFloor (E : EngineState) :
    (makeFloor E).rigidBodies.filter (fun r => r.name != "floor")
      = E.rigidBodies.filter fun r => r.name != "floor" := by
  show (((((E.rigidBodies ++ [_]) ++ [_]) ++ [_]) ++ [_]) ++ [_]).filter _
      = _
  simp [List.filter_append]

/-- Claim C5: from a state where the floor is showing and its composition
is the standard five panels (as at startup), pressing F twice removes and
then recreates the floor: the floor composition and count return to the
original, the flag is `true` again, and the non-floor objects are
untouched. -/
theorem c5_floor_toggle_roundtrip (st : AppState) (g g' : ℕ → ℚ)
    (i i' : ℕ) (hshow : st.floorIsShowing = true)
    (hspec : floorSpecs st.engine = floorPanelSpecs)
    (hid : idBound st.engine) :
    floorSpecs (handleKeypress (handleKeypress st KeyCode.keyF g i).1
        KeyCode.keyF g' i').1.engine = floorSpecs st.engine ∧
    (floorObjects (handleKeypress (handleKeypress st KeyCode.keyF g i).1
        KeyCode.keyF g' i').1.engine).length
      = (floorObjects st.engine).length ∧
    (handleKeypress (handleKeypress st KeyCode.keyF g i).1
        KeyCode.keyF g' i').1.floorIsShowing = true ∧
    (handleKeypress (handleKeypress st KeyCode.keyF g i).1
        KeyCode.keyF g' i').1.engine.rigidBodies.filter
        (fun r => r.name != "floor")
      = st.engine.rigidBodies.filter fun r => r.name != "floor" := by
  show floorSpecs (handleKeyF (handleKeyF st)).engine = _ ∧
    (floorObjects (handleKeyF (handleKeyF st)).engine).length = _ ∧
    (handleKeyF (handleKeyF st)).floorIsShowing = true ∧
    (handleKeyF (handleKeyF st)).engine.rigidBodies.filter _ = _
  have h1 : handleKeyF st
      = { st with engine := removeFloor st.engine, floorIsShowing := false } := by
    unfold handleKeyF
    rw [hshow]
    rfl
  have h2 : handleKeyF (handleKeyF st)
      = { st with
          engine := makeFloor (removeFloor st.engine),
          floorIsShowing := true } := by
    rw [h1]
    rfl
  rw [h2]
  obtain ⟨er, ir⟩ := floorSpecs_removeFloor st.engine hid
  obtain ⟨em, _⟩ := floorSpecs_makeFloor (removeFloor st.engine) ir
  have hfs2 : floorSpecs (makeFloor (removeFloor st.engine))
      = floorPanelSpecs := by
    rw [em, er]
    rfl
  have hlen : ∀ E : EngineState,
      (floorObjects E).length = (floorSpecs E).length := by
    intro E
    unfold floorSpecs
    rw [List.length_map]
  refine ⟨by rw [hfs2, hspec], ?_, rfl, ?_⟩
  · rw [hlen, hlen, hfs2, hspec]
  · rw [nonFloor_makeFloor, removeFloor_rigidBodies, List.filter_filter]
    apply List.filter_congr
    intro x _
    by_cases hx : x.name = "floor" <;> simp [hx]

/-- Witness for `c5_floor_toggle_roundtrip` at the startup state. -/
theorem c5_floor_toggle_witness :
    initApp.floorIsShowing = true ∧
    floorSpecs initApp.engine = floorPanelSpecs ∧
    idBound initApp.engine ∧
    (handleKeypress (handleKeypress initApp KeyCode.keyF gHalf 0).1
        KeyCode.keyF gHalf 0).1.floorIsShowing = true ∧
    floorSpecs (handleKeypress (handleKeypress initApp KeyCode.keyF gHalf 0).1
        KeyCode.keyF gHalf 0).1.engine = floorSpecs initApp.engine := by
  have h1 : floorSpecs initApp.engine = floorPanelSpecs :=
    initApp_floorInv.2
  have h2 : idBound initApp.engine := initApp_floorInv.1
  obtain ⟨e1, _, e3, _⟩ :=
    c5_floor_toggle_roundtrip initApp gHalf gHalf 0 0 rfl h1 h2
  exact ⟨rfl, h1, h2, e3, e1⟩

end Phys3D
